import Mathlib

/-!
Shallow embedding of the core of `fast_whisper` (src/main.py) and proofs about
the claims of its specification.

The embedded components are:
* `ModelCache` (src/main.py lines 58-120): singleton accessor `get_instance`
  with double-checked locking, and `get_model` with an in-memory map plus an
  on-disk pickle "ledger" of previously seen identity keys.
* `ModelLoader.run` (lines 132-142): progress milestones and terminal event.
* `TranscriptionThread.run` (lines 294-300): per-segment emission with
  optional punctuation stripping via `str.translate`.
* `RecordingThread.run` / `cleanup_resources` (lines 321-403): stream opening,
  capture loop, WAV serialization and guaranteed cleanup.

External collaborators (the `WhisperModel` constructor, pyaudio streams, the
wave writer, the pickle file) are modelled by explicit success/failure
parameters and by abstract handles/chunk identifiers; the control flow and data
flow of the repository's own code is translated branch by branch.
-/

namespace FastWhisper

/-- Atomic effects performed by `ModelCache.get_model`, recorded as a trace so
that locking discipline and loader invocations can be stated. -/
inductive Action where
  | acquireLock
  | releaseLock
  | readLedger
  | removeLedger
  | writeLedger
  | loadModel (key : String)
  | writeMap (key : String)
  deriving DecidableEq, Repr

/-- The on-disk cache metadata file (`model_cache_metadata.pkl`).
`absent`: the file does not exist; `empty`: it exists with size 0 (the code
checks `os.path.getsize(...) > 0`); `valid keys`: a pickled dict whose keys are
`keys`; `corrupt`: bytes whose unpickling raises `EOFError` or
`pickle.UnpicklingError` (truncated / invalid bytes). -/
inductive LedgerFile where
  | absent
  | empty
  | valid (keys : List String)
  | corrupt
  deriving DecidableEq, Repr

/-- State of the `ModelCache` singleton: the in-memory map `self.cache`
(association list keyed by the identity string, newest binding first, matching
Python dict reads), the ledger file, and a counter supplying fresh abstract
model handles for each `WhisperModel(...)` constructor call. -/
structure CacheState where
  cache : List (String × Nat)
  ledger : LedgerFile
  nextHandle : Nat
  deriving DecidableEq, Repr

/-- Result of a non-raising `get_model` call: the returned handle, the state
after the call, and the trace of effects performed. -/
structure GetModelResult where
  handle : Nat
  state : CacheState
  trace : List Action
  deriving DecidableEq, Repr

/-- `cache_key = f"{model_name}_{device}_{compute_type}"` (line 83). -/
def cacheKey (model_name device compute_type : String) : String :=
  model_name ++ "_" ++ device ++ "_" ++ compute_type

/-- Tail of `get_model` after a map miss that was not served by a ledger hit
(lines 106-120): call the `WhisperModel` constructor, insert into the in-memory
map, then best-effort rewrite the ledger with the keys of the in-memory map
(`{k: None for k in self.cache}`); a write failure is logged and swallowed.
`loaderOk` is whether the external constructor succeeds, `writeOk` whether the
ledger write succeeds; `pre` is the trace accumulated so far. -/
def loadAndWrite (s : CacheState) (k : String) (loaderOk writeOk : Bool)
    (pre : List Action) : Except String GetModelResult :=
  if loaderOk then
    let h := s.nextHandle
    let cache2 := (k, h) :: s.cache
    let ledger2 := if writeOk then LedgerFile.valid (cache2.map Prod.fst) else s.ledger
    Except.ok ⟨h, ⟨cache2, ledger2, s.nextHandle + 1⟩,
      pre ++ [Action.loadModel k, Action.writeMap k, Action.writeLedger]⟩
  else
    Except.error "WhisperModel load failed"

/-- `ModelCache.get_model` (lines 82-120). Branches, in source order:
1. in-memory map hit: return the stored handle, no effects;
2. ledger exists and is non-empty:
   * unpickles to a dict containing the key: re-invoke the loader, insert into
     the map, return (the ledger is NOT rewritten on this path);
   * unpickles to a dict without the key: fall through to `loadAndWrite`;
   * raises `EOFError`/`UnpicklingError`: warn, delete the file, fall through;
3. ledger absent or zero-sized: fall through to `loadAndWrite`.
A `WhisperModel` constructor failure (`loaderOk = false`) propagates as an
error; no lock is ever taken inside this method. -/
def get_model (s : CacheState) (model_name device compute_type : String)
    (loaderOk writeOk : Bool) : Except String GetModelResult :=
  let k := cacheKey model_name device compute_type
  match s.cache.lookup k with
  | some h => Except.ok ⟨h, s, []⟩
  | none =>
    match s.ledger with
    | LedgerFile.valid keys =>
      if k ∈ keys then
        if loaderOk then
          Except.ok ⟨s.nextHandle, ⟨(k, s.nextHandle) :: s.cache, s.ledger, s.nextHandle + 1⟩,
            [Action.readLedger, Action.loadModel k, Action.writeMap k]⟩
        else
          Except.error "WhisperModel load failed"
      else
        loadAndWrite s k loaderOk writeOk [Action.readLedger]
    | LedgerFile.corrupt =>
      loadAndWrite { s with ledger := LedgerFile.absent } k loaderOk writeOk
        [Action.readLedger, Action.removeLedger]
    | LedgerFile.absent => loadAndWrite s k loaderOk writeOk []
    | LedgerFile.empty => loadAndWrite s k loaderOk writeOk []

/-- Effects of `ModelCache.get_instance` (lines 62-68). -/
inductive SingletonAction where
  | readInstance
  | acquireLock
  | createInstance
  | releaseLock
  deriving DecidableEq, Repr

/-- `ModelCache.get_instance` (lines 62-68): double-checked locking. If the
instance exists, return it with a single unlocked read; otherwise read, acquire
the class lock, re-check, create the instance while holding the lock, release.
Sequentially the second check sees the same `none`; the trace records the
discipline. The instance is abstracted to a numeric id. -/
def get_instance (inst : Option Nat) : Nat × Option Nat × List SingletonAction :=
  match inst with
  | some i => (i, some i, [SingletonAction.readInstance])
  | none =>
    (0, some 0,
      [SingletonAction.readInstance, SingletonAction.acquireLock,
       SingletonAction.readInstance, SingletonAction.createInstance,
       SingletonAction.releaseLock])

/-- Spec-side checker: every mutation of the in-memory map or of the ledger
file in the trace happens while the mutex is held. `held` is the lock state on
entry. -/
def lockedMutationsOk : List Action → Bool → Bool
  | [], _ => true
  | a :: rest, held =>
    match a with
    | Action.acquireLock => lockedMutationsOk rest true
    | Action.releaseLock => lockedMutationsOk rest false
    | Action.writeMap _ => held && lockedMutationsOk rest held
    | Action.removeLedger => held && lockedMutationsOk rest held
    | Action.writeLedger => held && lockedMutationsOk rest held
    | _ => lockedMutationsOk rest held

/-- Spec-side checker: the singleton is created only while the lock is held. -/
def createOnlyUnderLock : List SingletonAction → Bool → Bool
  | [], _ => true
  | a :: rest, held =>
    match a with
    | SingletonAction.acquireLock => createOnlyUnderLock rest true
    | SingletonAction.releaseLock => createOnlyUnderLock rest false
    | SingletonAction.createInstance => held && createOnlyUnderLock rest held
    | _ => createOnlyUnderLock rest held

/-! ### ModelLoader (src/main.py lines 122-142) -/

/-- Events emitted by `ModelLoader.run`: `progress_update` and the terminal
`model_ready` signal carrying either a handle or `None`. -/
inductive LoaderEvent where
  | progress (pct : Nat)
  | modelReady (handle : Option Nat)
  deriving DecidableEq, Repr

/-- `ModelLoader.run` (lines 132-142): inside a try block emit progress 10,
get the cache singleton, emit 50, call `get_model`, emit 100, emit
`model_ready(model)`; on any exception log the error and emit
`model_ready(None)`. In this embedding the only failing operation is
`get_model` (the signal emissions and `get_instance` do not raise). Returns
the emitted event sequence in order. -/
def modelLoaderRun (s : CacheState) (model_name device compute_type : String)
    (loaderOk writeOk : Bool) : List LoaderEvent :=
  match get_model s model_name device compute_type loaderOk writeOk with
  | Except.ok r =>
    [LoaderEvent.progress 10, LoaderEvent.progress 50, LoaderEvent.progress 100,
     LoaderEvent.modelReady (some r.handle)]
  | Except.error _ =>
    [LoaderEvent.progress 10, LoaderEvent.progress 50, LoaderEvent.modelReady none]

/-- Whether an event is the terminal `model_ready` signal. -/
def isTerminal : LoaderEvent → Bool
  | LoaderEvent.modelReady _ => true
  | LoaderEvent.progress _ => false

/-! ### TranscriptionThread (src/main.py lines 285-300) -/

/-- The value of Python's `string.punctuation` constant:
ASCII 33-47, 58-64, 91-96, 123-126. -/
def punctuation : String :=
  "!\"#$%&'()*+,-./:;<=>?@[\\]^_`\x7b|\x7d~"

/-- `str.maketrans('', '', del)` builds a translation table mapping every
character of `del` to deletion (`None`). -/
def pyMaketransDelete (del : String) : List (Char × Option Char) :=
  del.toList.map (fun c => (c, none))

/-- Python `str.translate(table)`: map each character through the table;
a `None` entry deletes the character, an unmapped character is kept. -/
def pyTranslate (table : List (Char × Option Char)) (s : String) : String :=
  String.mk (s.toList.filterMap (fun c =>
    match table.lookup c with
    | some (some d) => some d
    | some none => none
    | none => some c))

/-- `TranscriptionThread.run` (lines 294-300): iterate the segment texts in
order and emit each one via `transcription_complete`, first stripping
`string.punctuation` characters when `remove_punctuation` is set. The model's
segment sequence is abstracted to the list of its `.text` fields; the returned
list is the emission sequence in order. -/
def transcriptionRun (segments : List String) (remove_punctuation : Bool) : List String :=
  segments.map (fun text =>
    if remove_punctuation then pyTranslate (pyMaketransDelete punctuation) text
    else text)

/-- Spec-side description of punctuation stripping: every punctuation
character is removed and all other characters are preserved in order. -/
def specStripPunctuation (s : String) : String :=
  String.mk (s.toList.filter (fun c => !(punctuation.toList.contains c)))

/-! ### RecordingThread (src/main.py lines 302-407) -/

/-- `self.input_source` (line 313): "microphone", "computer_audio" or "both". -/
inductive InputSource where
  | microphone
  | computer_audio
  | both
  deriving DecidableEq, Repr

/-- One pyaudio stream handle: `is_active()` and whether it is still open. -/
structure StreamH where
  isActive : Bool
  isOpen : Bool
  deriving DecidableEq, Repr

/-- Outcome of one `stream.read` call: a chunk of data (abstracted to an id),
an `IOError` (caught at line 363, logged, iteration continues), or any other
exception (propagates to the outer handler at line 385). -/
inductive ReadOutcome where
  | ok (chunk : Nat)
  | ioError
  | fatal (msg : String)
  deriving DecidableEq, Repr

/-- Per-session configuration of `RecordingThread` (lines 306-315); the audio
format/rate/chunk parameters are opaque to the control flow and omitted. -/
structure RecConfig where
  input_source : InputSource
  mic_device_index : Option Nat
  computer_device_index : Option Nat
  deriving DecidableEq, Repr

/-- Behaviour of the external world during one run: whether each
`self.audio.open(...)` call succeeds, the scripted read outcomes (outer list:
one entry per `while self.is_recording` iteration until `stop()` flips the
flag; inner list: one outcome per open stream, padded with successful reads),
and whether the `wave` file write succeeds. -/
structure RunEnv where
  openMicOk : Bool
  openCompOk : Bool
  iterations : List (List ReadOutcome)
  writeOk : Bool
  deriving DecidableEq, Repr

/-- Events emitted by `RecordingThread`. -/
inductive RecEvent where
  | recording_complete
  | error_occurred (msg : String)
  deriving DecidableEq, Repr

/-- `self.input_source in ["microphone", "both"]` (line 326). -/
def wantsMic : InputSource → Bool
  | InputSource.microphone => true
  | InputSource.both => true
  | InputSource.computer_audio => false

/-- `self.input_source in ["computer_audio", "both"]` (line 340). -/
def wantsComp : InputSource → Bool
  | InputSource.computer_audio => true
  | InputSource.both => true
  | InputSource.microphone => false

/-- The computer-audio half of the stream-opening phase (lines 340-352),
given the handles and `self.streams` ids opened so far. Returns the ever-opened
handles, the ids in `self.streams`, and the raised exception message if any. -/
def openComp (cfg : RecConfig) (env : RunEnv) (hs : List StreamH) (ss : List Nat) :
    List StreamH × List Nat × Option String :=
  if wantsComp cfg.input_source then
    match cfg.computer_device_index with
    | none => (hs, ss, some "Ingen datorljudenhet vald.")
    | some _ =>
      if env.openCompOk then (hs ++ [⟨true, true⟩], ss ++ [hs.length], none)
      else (hs, ss, some "pyaudio open error")
  else (hs, ss, none)

/-- The stream-opening phase of `run` (lines 326-352): mic first, then
computer audio; a missing required device index raises `ValueError` with the
Swedish message from the source; a failing `audio.open` raises without
creating a handle. -/
def openPhase (cfg : RecConfig) (env : RunEnv) :
    List StreamH × List Nat × Option String :=
  if wantsMic cfg.input_source then
    match cfg.mic_device_index with
    | none => ([], [], some "Ingen mikrofonenhet vald.")
    | some _ =>
      if env.openMicOk then openComp cfg env [⟨true, true⟩] [0]
      else ([], [], some "pyaudio open error")
  else openComp cfg env [] []

/-- Read outcomes of one `while` iteration: the `for stream in self.streams`
loop performs exactly one read per stream; the script is padded with
successful reads if shorter than the stream list. -/
def iterOutcomes (numStreams : Nat) (it : List ReadOutcome) : List ReadOutcome :=
  (List.range numStreams).map (fun j => it.getD j (ReadOutcome.ok 0))

/-- The inner `for stream in self.streams` loop body (lines 359-365): each
successful read appends its data to `frames`, an `IOError` is logged and
skipped, any other exception aborts with its message. -/
def readStreams : List ReadOutcome → List Nat × Option String
  | [] => ([], none)
  | o :: rest =>
    match o with
    | ReadOutcome.ok d =>
      let r := readStreams rest
      (d :: r.1, r.2)
    | ReadOutcome.ioError => readStreams rest
    | ReadOutcome.fatal m => ([], some m)

/-- The `while self.is_recording` capture loop (lines 358-365): one scripted
iteration per list entry; the loop exits normally when the script is exhausted
(the `stop()` call has set `is_recording = False`), or abruptly when a read
raises a non-IOError exception. Returns the captured frames and the fatal
message, if any. -/
def captureLoop (numStreams : Nat) : List (List ReadOutcome) → List Nat × Option String
  | [] => ([], none)
  | it :: rest =>
    let r := readStreams (iterOutcomes numStreams it)
    match r.2 with
    | some m => (r.1, some m)
    | none =>
      let r2 := captureLoop numStreams rest
      (r.1 ++ r2.1, r2.2)

/-- Apply `f` to the handles whose index is listed in `ss` (the streams still
referenced by `self.streams`). -/
def applyToIds (hs : List StreamH) (ss : List Nat) (f : StreamH → StreamH) :
    List StreamH :=
  hs.enum.map (fun p => if p.1 ∈ ss then f p.2 else p.2)

/-- `stream.stop_stream(); stream.close()` — and also the
`if stream.is_active(): stream.stop_stream()` then `stream.close()` form in
`cleanup_resources`: in both cases the handle ends inactive and closed. -/
def stopCloseOne (_h : StreamH) : StreamH := ⟨false, false⟩

/-- State of the thread just before the `finally` block runs: all handles ever
opened (indexed by id), the ids still in `self.streams`, the captured frames,
whether the WAV file was written, and the emitted events in order. -/
structure MidState where
  handles : List StreamH
  selfStreams : List Nat
  frames : List Nat
  fileWritten : Bool
  events : List RecEvent
  deriving DecidableEq, Repr

/-- Result of a full `RecordingThread.run`, after the `finally` block. -/
structure RunResult where
  handles : List StreamH
  frames : List Nat
  fileWritten : Bool
  events : List RecEvent
  deriving DecidableEq, Repr

/-- The `try` body of `RecordingThread.run` (lines 322-386) together with the
`except` handler: open streams; capture until stop or a fatal read error; on
normal exit stop/close every stream and clear `self.streams` (lines 368-371),
then, if at least one frame was captured, write the WAV file and emit
`recording_complete` (or emit the save-error message if the write raises);
any exception raised in the body is converted to an `error_occurred` event
with the `Inspelningsfel: ` prefix (line 386). -/
def runBody (cfg : RecConfig) (env : RunEnv) : MidState :=
  match openPhase cfg env with
  | (hs, ss, some msg) =>
    ⟨hs, ss, [], false, [RecEvent.error_occurred ("Inspelningsfel: " ++ msg)]⟩
  | (hs, ss, none) =>
    let cap := captureLoop ss.length env.iterations
    match cap.2 with
    | some m =>
      ⟨hs, ss, cap.1, false, [RecEvent.error_occurred ("Inspelningsfel: " ++ m)]⟩
    | none =>
      let hs2 := applyToIds hs ss stopCloseOne
      if cap.1.isEmpty then ⟨hs2, [], cap.1, false, []⟩
      else if env.writeOk then ⟨hs2, [], cap.1, true, [RecEvent.recording_complete]⟩
      else
        ⟨hs2, [], cap.1, false,
         [RecEvent.error_occurred "Fel vid sparning av inspelning: wave write error"]⟩

/-- `RecordingThread.run` (lines 321-389): the body followed by the `finally:
self.cleanup_resources()` (lines 391-403), which stops every still-active
stream in `self.streams`, closes it, and clears the list. -/
def recordingRun (cfg : RecConfig) (env : RunEnv) : RunResult :=
  let m := runBody cfg env
  ⟨applyToIds m.handles m.selfStreams stopCloseOne, m.frames, m.fileWritten, m.events⟩

/-! ### Helper lemmas about `ModelCache` -/

/-- Characterization of a successful `loadAndWrite`. -/
theorem loadAndWrite_ok (s : CacheState) (k : String) (lo wo : Bool)
    (pre : List Action) (r : GetModelResult)
    (h : loadAndWrite s k lo wo pre = Except.ok r) :
    lo = true ∧
    r = ⟨s.nextHandle,
         ⟨(k, s.nextHandle) :: s.cache,
          if wo then LedgerFile.valid (((k, s.nextHandle) :: s.cache).map Prod.fst)
          else s.ledger,
          s.nextHandle + 1⟩,
         pre ++ [Action.loadModel k, Action.writeMap k, Action.writeLedger]⟩ := by
  cases lo with
  | false => simp [loadAndWrite] at h
  | true =>
    cases wo with
    | false =>
      simp only [loadAndWrite, if_true, if_false, Except.ok.injEq] at h
      exact ⟨rfl, h.symm⟩
    | true =>
      simp only [loadAndWrite, if_true, Except.ok.injEq] at h
      exact ⟨rfl, h.symm⟩

/-- Every successful `get_model` call leaves the requested key in the
in-memory map, bound to the returned handle. -/
theorem get_model_ok_lookup (s : CacheState) (mn dv ct : String) (lo wo : Bool)
    (r : GetModelResult) (h : get_model s mn dv ct lo wo = Except.ok r) :
    r.state.cache.lookup (cacheKey mn dv ct) = some r.handle := by
  simp only [get_model] at h
  split at h
  · rename_i hdl hlk
    cases h
    exact hlk
  · split at h
    · split at h
      · split at h
        · cases h
          simp [List.lookup]
        · exact absurd h (by simp)
      · rcases loadAndWrite_ok _ _ _ _ _ _ h with ⟨-, hr⟩
        subst hr
        simp [List.lookup]
    · rcases loadAndWrite_ok _ _ _ _ _ _ h with ⟨-, hr⟩
      subst hr
      simp [List.lookup]
    · rcases loadAndWrite_ok _ _ _ _ _ _ h with ⟨-, hr⟩
      subst hr
      simp [List.lookup]
    · rcases loadAndWrite_ok _ _ _ _ _ _ h with ⟨-, hr⟩
      subst hr
      simp [List.lookup]

/-- An in-memory map hit returns the stored handle with no state change and no
effects (lines 86-88). -/
theorem get_model_hit (s : CacheState) (mn dv ct : String) (lo wo : Bool)
    (hdl : Nat) (h : s.cache.lookup (cacheKey mn dv ct) = some hdl) :
    get_model s mn dv ct lo wo = Except.ok ⟨hdl, s, []⟩ := by
  simp only [get_model]
  rw [h]

/-! ### Claim theorems for the ModelCache -/

/-- C1: once an identity's key has been inserted into the in-memory map by a
`get_model` call, every subsequent `get_model` call for the same identity
returns the already-loaded handle from the map, leaves the state unchanged and
performs no effect at all — in particular it never invokes the `WhisperModel`
constructor (the empty trace contains no `loadModel`, and the subsequent call
succeeds even when the external loader would fail). -/
theorem get_model_second_call_uses_memory_cache (s : CacheState)
    (mn dv ct : String) (lo wo : Bool) (r : GetModelResult)
    (h : get_model s mn dv ct lo wo = Except.ok r) (lo2 wo2 : Bool) :
    get_model r.state mn dv ct lo2 wo2 = Except.ok ⟨r.handle, r.state, []⟩ :=
  get_model_hit r.state mn dv ct lo2 wo2 r.handle (get_model_ok_lookup s mn dv ct lo wo r h)

/-- Witness for C1: a first call on an empty cache loads the model; the second
call returns the same handle from memory, with no effects, even with a loader
that would fail. -/
theorem get_model_second_call_uses_memory_cache_witness :
    get_model ⟨[("tiny_cpu_int8", 0)], LedgerFile.valid ["tiny_cpu_int8"], 1⟩
      "tiny" "cpu" "int8" false false =
      Except.ok ⟨0, ⟨[("tiny_cpu_int8", 0)], LedgerFile.valid ["tiny_cpu_int8"], 1⟩, []⟩ :=
  get_model_second_call_uses_memory_cache ⟨[], LedgerFile.absent, 0⟩ "tiny" "cpu" "int8"
    true true
    ⟨0, ⟨[("tiny_cpu_int8", 0)], LedgerFile.valid ["tiny_cpu_int8"], 1⟩,
     [Action.loadModel "tiny_cpu_int8", Action.writeMap "tiny_cpu_int8", Action.writeLedger]⟩
    rfl false false

/-- C2: with a corrupted ledger file and an identity absent from the in-memory
map, `get_model` does not raise: it consults the ledger, deletes the corrupted
file, invokes the external loader, inserts the handle into the map and rewrites
the ledger file with the keys of the in-memory map. -/
theorem get_model_corrupt_ledger_recovers (s : CacheState) (mn dv ct : String)
    (hcor : s.ledger = LedgerFile.corrupt)
    (hmiss : s.cache.lookup (cacheKey mn dv ct) = none) :
    get_model s mn dv ct true true =
      Except.ok ⟨s.nextHandle,
        ⟨(cacheKey mn dv ct, s.nextHandle) :: s.cache,
         LedgerFile.valid (((cacheKey mn dv ct, s.nextHandle) :: s.cache).map Prod.fst),
         s.nextHandle + 1⟩,
        [Action.readLedger, Action.removeLedger, Action.loadModel (cacheKey mn dv ct),
         Action.writeMap (cacheKey mn dv ct), Action.writeLedger]⟩ := by
  simp only [get_model]
  rw [hmiss, hcor]
  simp [loadAndWrite]

/-- Witness for C2: a concrete corrupted ledger; the call succeeds, removes
the file, loads the model and rewrites the ledger. -/
theorem get_model_corrupt_ledger_recovers_witness :
    get_model ⟨[], LedgerFile.corrupt, 0⟩ "tiny" "cpu" "int8" true true =
      Except.ok ⟨0, ⟨[("tiny_cpu_int8", 0)], LedgerFile.valid ["tiny_cpu_int8"], 1⟩,
        [Action.readLedger, Action.removeLedger, Action.loadModel "tiny_cpu_int8",
         Action.writeMap "tiny_cpu_int8", Action.writeLedger]⟩ :=
  get_model_corrupt_ledger_recovers ⟨[], LedgerFile.corrupt, 0⟩ "tiny" "cpu" "int8" rfl rfl

/-- C3: for an identity absent from the in-memory map whose key is present in
the on-disk ledger, `get_model` still invokes the `WhisperModel` constructor
(`loadModel` is in the trace) and inserts the new handle into the in-memory
map; the ledger is not rewritten on this path. -/
theorem get_model_ledger_hit_still_loads (s : CacheState) (mn dv ct : String)
    (wo : Bool) (keys : List String)
    (hmiss : s.cache.lookup (cacheKey mn dv ct) = none)
    (hled : s.ledger = LedgerFile.valid keys)
    (hmem : cacheKey mn dv ct ∈ keys) :
    get_model s mn dv ct true wo =
      Except.ok ⟨s.nextHandle,
        ⟨(cacheKey mn dv ct, s.nextHandle) :: s.cache, s.ledger, s.nextHandle + 1⟩,
        [Action.readLedger, Action.loadModel (cacheKey mn dv ct),
         Action.writeMap (cacheKey mn dv ct)]⟩ := by
  simp only [get_model]
  rw [hmiss, hled]
  simp [hled, hmem]

/-- Witness for C3: a ledger hit on a fresh in-memory map still performs the
load and inserts the result into the map. -/
theorem get_model_ledger_hit_still_loads_witness :
    get_model ⟨[], LedgerFile.valid ["tiny_cpu_int8"], 5⟩ "tiny" "cpu" "int8" true true =
      Except.ok ⟨5, ⟨[("tiny_cpu_int8", 5)], LedgerFile.valid ["tiny_cpu_int8"], 6⟩,
        [Action.readLedger, Action.loadModel "tiny_cpu_int8",
         Action.writeMap "tiny_cpu_int8"]⟩ :=
  get_model_ledger_hit_still_loads ⟨[], LedgerFile.valid ["tiny_cpu_int8"], 5⟩
    "tiny" "cpu" "int8" true ["tiny_cpu_int8"] rfl rfl (by decide)

/-- C9 counterexample: the claim that the in-memory map and the ledger file
are mutated only while holding a mutex is false on the code. At the concrete
input below, `get_model` mutates the map (and writes the ledger) while the
trace contains no lock acquisition at all: the locking-discipline checker
rejects the trace. -/
theorem get_model_mutation_without_lock_counterexample :
    ∃ r, get_model ⟨[], LedgerFile.absent, 0⟩ "base" "cpu" "int8" true true = Except.ok r ∧
      Action.writeMap "base_cpu_int8" ∈ r.trace ∧
      Action.acquireLock ∉ r.trace ∧
      lockedMutationsOk r.trace false = false := by
  refine ⟨⟨0, ⟨[("base_cpu_int8", 0)], LedgerFile.valid ["base_cpu_int8"], 1⟩,
    [Action.loadModel "base_cpu_int8", Action.writeMap "base_cpu_int8",
     Action.writeLedger]⟩, rfl, ?_, ?_, rfl⟩
  · decide
  · decide

/-- C9 as amended: the singleton accessor `get_instance` does use
double-checked locking — the instance is created only while the class lock is
held, and an already-created instance is returned from a single unlocked
read — but `get_model` itself is not mutex-protected: no successful call's
trace contains any lock acquisition or release, so the in-memory map and the
ledger file are mutated without holding a mutex. -/
theorem dcl_singleton_but_unlocked_get_model :
    (∀ inst, createOnlyUnderLock (get_instance inst).2.2 false = true) ∧
    (∀ i, get_instance (some i) = (i, some i, [SingletonAction.readInstance])) ∧
    (get_instance none).2.2 =
      [SingletonAction.readInstance, SingletonAction.acquireLock,
       SingletonAction.readInstance, SingletonAction.createInstance,
       SingletonAction.releaseLock] ∧
    (∀ s mn dv ct lo wo r, get_model s mn dv ct lo wo = Except.ok r →
      Action.acquireLock ∉ r.trace ∧ Action.releaseLock ∉ r.trace) := by
  refine ⟨?_, fun i => rfl, rfl, ?_⟩
  · intro inst
    cases inst <;> rfl
  · intro s mn dv ct lo wo r h
    simp only [get_model] at h
    split at h
    · cases h
      simp
    · split at h
      · split at h
        · split at h
          · cases h
            simp
          · exact absurd h (by simp)
        · rcases loadAndWrite_ok _ _ _ _ _ _ h with ⟨-, hr⟩
          subst hr
          simp
      · rcases loadAndWrite_ok _ _ _ _ _ _ h with ⟨-, hr⟩
        subst hr
        simp
      · rcases loadAndWrite_ok _ _ _ _ _ _ h with ⟨-, hr⟩
        subst hr
        simp
      · rcases loadAndWrite_ok _ _ _ _ _ _ h with ⟨-, hr⟩
        subst hr
        simp

/-- Witness for the amended C9: a concrete loading call performs its map and
ledger mutations with no lock acquisition or release in its trace. -/
theorem dcl_singleton_but_unlocked_get_model_witness :
    Action.acquireLock ∉
      [Action.loadModel "base_cpu_int8", Action.writeMap "base_cpu_int8",
       Action.writeLedger] ∧
    Action.releaseLock ∉
      [Action.loadModel "base_cpu_int8", Action.writeMap "base_cpu_int8",
       Action.writeLedger] :=
  dcl_singleton_but_unlocked_get_model.2.2.2 ⟨[], LedgerFile.absent, 0⟩
    "base" "cpu" "int8" true true
    ⟨0, ⟨[("base_cpu_int8", 0)], LedgerFile.valid ["base_cpu_int8"], 1⟩,
     [Action.loadModel "base_cpu_int8", Action.writeMap "base_cpu_int8",
      Action.writeLedger]⟩ rfl

/-- C10: the in-memory cache key `f"{model_name}_{device}_{compute_type}"` is
not injective: the distinct identities `("a", "b_cpu", "int8")` and
`("a_b", "cpu", "int8")` produce the same key, so after loading the first
identity, a `get_model` call for the second returns the handle loaded for the
first — without invoking the loader (the call succeeds even with a failing
loader, with an empty trace and unchanged state). -/
theorem cache_key_not_injective :
    cacheKey "a" "b_cpu" "int8" = cacheKey "a_b" "cpu" "int8" ∧
    ("a", "b_cpu", "int8") ≠ (("a_b", "cpu", "int8") : String × String × String) ∧
    get_model ⟨[], LedgerFile.absent, 0⟩ "a" "b_cpu" "int8" true true =
      Except.ok ⟨0, ⟨[("a_b_cpu_int8", 0)], LedgerFile.valid ["a_b_cpu_int8"], 1⟩,
        [Action.loadModel "a_b_cpu_int8", Action.writeMap "a_b_cpu_int8",
         Action.writeLedger]⟩ ∧
    get_model ⟨[("a_b_cpu_int8", 0)], LedgerFile.valid ["a_b_cpu_int8"], 1⟩
      "a_b" "cpu" "int8" false false =
      Except.ok ⟨0, ⟨[("a_b_cpu_int8", 0)], LedgerFile.valid ["a_b_cpu_int8"], 1⟩, []⟩ := by
  refine ⟨rfl, ?_, rfl, rfl⟩
  decide

/-! ### Claim theorem for the ModelLoader -/

/-- C8: every `ModelLoader.run` emits exactly one terminal `model_ready`
event, and it is the last event emitted; when the load succeeds the terminal
event carries the model handle and is preceded by the ordered progress
milestones 10, 50, 100; when the load raises, the terminal event carries
`none` (the "no model" indicator) and no further loader call occurs in the
run. -/
theorem modelLoaderRun_one_terminal_event (s : CacheState)
    (mn dv ct : String) (lo wo : Bool) :
    ((modelLoaderRun s mn dv ct lo wo).filter isTerminal).length = 1 ∧
    (∀ r, get_model s mn dv ct lo wo = Except.ok r →
      modelLoaderRun s mn dv ct lo wo =
        [LoaderEvent.progress 10, LoaderEvent.progress 50, LoaderEvent.progress 100,
         LoaderEvent.modelReady (some r.handle)]) ∧
    (∀ e, get_model s mn dv ct lo wo = Except.error e →
      modelLoaderRun s mn dv ct lo wo =
        [LoaderEvent.progress 10, LoaderEvent.progress 50,
         LoaderEvent.modelReady none]) := by
  refine ⟨?_, ?_, ?_⟩
  · cases h : get_model s mn dv ct lo wo <;>
      simp [modelLoaderRun, h, isTerminal, List.filter]
  · intro r h
    simp [modelLoaderRun, h]
  · intro e h
    simp [modelLoaderRun, h]

/-- Witness for C8: a successful concrete load emits the milestones 10, 50,
100 followed by the terminal event with the handle. -/
theorem modelLoaderRun_one_terminal_event_witness :
    modelLoaderRun ⟨[], LedgerFile.absent, 0⟩ "tiny" "cpu" "int8" true true =
      [LoaderEvent.progress 10, LoaderEvent.progress 50, LoaderEvent.progress 100,
       LoaderEvent.modelReady (some 0)] :=
  (modelLoaderRun_one_terminal_event ⟨[], LedgerFile.absent, 0⟩ "tiny" "cpu" "int8"
      true true).2.1
    ⟨0, ⟨[("tiny_cpu_int8", 0)], LedgerFile.valid ["tiny_cpu_int8"], 1⟩,
     [Action.loadModel "tiny_cpu_int8", Action.writeMap "tiny_cpu_int8",
      Action.writeLedger]⟩ rfl

/-! ### Claim theorem for the TranscriptionThread -/

/-- A deletion-only translation table maps a character to `some none` exactly
when the character belongs to the deleted set. -/
theorem lookup_maketransDelete (d : String) (c : Char) :
    (pyMaketransDelete d).lookup c =
      if c ∈ d.toList then some none else none := by
  unfold pyMaketransDelete
  induction d.toList with
  | nil => rfl
  | cons a t ih =>
    by_cases hac : c = a
    · subst hac
      simp [List.lookup]
    · have hbeq : (a == c) = false := beq_eq_false_iff_ne.mpr (Ne.symm hac)
      have hbeq2 : (c == a) = false := beq_eq_false_iff_ne.mpr hac
      simp [List.lookup, hbeq, hbeq2, hac, ih]

/-- Restatement of `List.contains` through decidable membership. -/
theorem contains_eq_decide_mem (l : List Char) (c : Char) :
    l.contains c = decide (c ∈ l) :=
  List.elem_eq_mem c l

/-- Python `translate` with a deletion-only table is exactly the filter that
drops the deleted characters and preserves all others in order. -/
theorem pyTranslate_maketransDelete (d s : String) :
    pyTranslate (pyMaketransDelete d) s =
      String.mk (s.toList.filter (fun c => !(d.toList.contains c))) := by
  unfold pyTranslate
  congr 1
  induction s.toList with
  | nil => rfl
  | cons c t ih =>
    simp only [lookup_maketransDelete, contains_eq_decide_mem, String.toList] at ih ⊢
    by_cases h : c ∈ d.data <;>
      simp [List.filterMap_cons, List.filter_cons, h, ih]

/-- C7: `TranscriptionThread.run` emits exactly one event per segment, in
input order: with `remove_punctuation` set, each emitted text is the segment
text with every `string.punctuation` character removed and all other
characters preserved; without it, each segment text is emitted unchanged; in
particular the segments `["Hello, world!", "Bye."]` yield the emissions
`["Hello world", "Bye"]`. -/
theorem transcriptionRun_emits_per_segment :
    (∀ segments, transcriptionRun segments true = segments.map specStripPunctuation) ∧
    (∀ segments, transcriptionRun segments false = segments) ∧
    transcriptionRun ["Hello, world!", "Bye."] true = ["Hello world", "Bye"] := by
  refine ⟨?_, ?_, ?_⟩
  · intro segments
    unfold transcriptionRun specStripPunctuation
    simp only [if_true]
    exact List.map_congr_left (fun t _ => pyTranslate_maketransDelete punctuation t)
  · intro segments
    simp [transcriptionRun]
  · rfl

/-! ### Helper lemmas about the RecordingThread -/

/-- `applyToIds` touching no stream is the identity. -/
theorem applyToIds_nil (hs : List StreamH) (f : StreamH → StreamH) :
    applyToIds hs [] f = hs := by
  unfold applyToIds
  simp

/-- Every `openPhase` outcome has one of three shapes: no stream opened, the
mic stream opened, or the mic and computer streams opened — and every opened
handle's id is tracked in `self.streams`. -/
theorem openPhase_cases (cfg : RecConfig) (env : RunEnv) :
    (∃ e, openPhase cfg env = ([], [], e)) ∨
    (∃ e, openPhase cfg env = ([⟨true, true⟩], [0], e)) ∨
    (∃ e, openPhase cfg env = ([⟨true, true⟩, ⟨true, true⟩], [0, 1], e)) := by
  rcases cfg with ⟨src, mic, comp⟩
  rcases env with ⟨omic, ocomp, iters, wok⟩
  cases src <;> rcases mic with _ | m <;> rcases comp with _ | c <;>
    cases omic <;> cases ocomp <;>
    first
    | exact Or.inl ⟨_, rfl⟩
    | exact Or.inr (Or.inl ⟨_, rfl⟩)
    | exact Or.inr (Or.inr ⟨_, rfl⟩)

/-- Invariant of the `try`/`except` body: when it finishes, either
`self.streams` still lists exactly the ids of the streams opened by the open
phase (error and fatal-read paths), or the normal path has already
stopped/closed every opened stream and cleared `self.streams`. -/
theorem runBody_inv (cfg : RecConfig) (env : RunEnv) :
    ((runBody cfg env).handles = (openPhase cfg env).1 ∧
     (runBody cfg env).selfStreams = (openPhase cfg env).2.1) ∨
    ((runBody cfg env).handles =
       applyToIds (openPhase cfg env).1 (openPhase cfg env).2.1 stopCloseOne ∧
     (runBody cfg env).selfStreams = []) := by
  rcases hop : openPhase cfg env with ⟨hs, ss, e⟩
  cases e with
  | some msg =>
    left
    simp [runBody, hop]
  | none =>
    rcases hc : captureLoop ss.length env.iterations with ⟨frames, fat⟩
    cases fat with
    | some m =>
      left
      simp [runBody, hop, hc]
    | none =>
      right
      by_cases hf : frames.isEmpty <;> cases hw : env.writeOk <;>
        simp [runBody, hop, hc, hf, hw]

/-! ### Claim theorems for the RecordingThread -/

/-- C5: on every exit path of `RecordingThread.run` — normal stop, stop after
a read error, fatal exception during open or capture, or a failed WAV write —
every stream handle that was ever opened is stopped and closed by the time the
run finishes: no open stream handles remain. -/
theorem recordingRun_closes_all_streams (cfg : RecConfig) (env : RunEnv) :
    ((recordingRun cfg env).handles.all fun h => !h.isActive && !h.isOpen) = true := by
  rcases openPhase_cases cfg env with ⟨e, hop⟩ | ⟨e, hop⟩ | ⟨e, hop⟩ <;>
    rcases runBody_inv cfg env with ⟨hh, hss⟩ | ⟨hh, hss⟩ <;>
    simp only [recordingRun, hh, hss, hop, applyToIds_nil] <;>
    simp [applyToIds, List.enum, List.enumFrom, stopCloseOne]

/-- C4 counterexample: a session with `input_source = "both"` and only a mic
device id does emit the error event, but not before opening a stream: the mic
stream is opened first (one handle exists), refuting "without opening any
audio stream". -/
theorem recording_both_opens_mic_before_error :
    (recordingRun ⟨InputSource.both, some 0, none⟩ ⟨true, true, [], true⟩).events =
      [RecEvent.error_occurred "Inspelningsfel: Ingen datorljudenhet vald."] ∧
    (recordingRun ⟨InputSource.both, some 0, none⟩ ⟨true, true, [], true⟩).handles.length
      = 1 :=
  ⟨rfl, rfl⟩

/-- C4 as amended: a session with `input_source = "both"` where a mic device
id is configured (and the mic stream opens successfully) but no computer
device id is configured emits exactly the configuration error event, captures
nothing, writes no file — but it first opens the mic stream, which the
guaranteed cleanup then stops and closes, so no stream remains open. -/
theorem recording_both_missing_computer_device (m : Nat) (env : RunEnv)
    (hm : env.openMicOk = true) :
    recordingRun ⟨InputSource.both, some m, none⟩ env =
      ⟨[⟨false, false⟩], [], false,
       [RecEvent.error_occurred "Inspelningsfel: Ingen datorljudenhet vald."]⟩ := by
  simp [recordingRun, runBody, openPhase, openComp, wantsMic, wantsComp, hm,
    applyToIds, List.enum, List.enumFrom, stopCloseOne]

/-- Witness for the amended C4. -/
theorem recording_both_missing_computer_device_witness :
    recordingRun ⟨InputSource.both, some 3, none⟩ ⟨true, false, [], false⟩ =
      ⟨[⟨false, false⟩], [], false,
       [RecEvent.error_occurred "Inspelningsfel: Ingen datorljudenhet vald."]⟩ :=
  recording_both_missing_computer_device 3 ⟨true, false, [], false⟩ rfl

/-- C6: a session that finishes with zero captured chunks writes no waveform
file and emits no `recording_complete` event (on any path, including error
paths); a session whose open phase succeeded, whose capture loop ended
normally with at least one chunk, and whose WAV write succeeds, writes the
file and fires the completion event exactly once. -/
theorem recording_empty_buffer_no_output (cfg : RecConfig) (env : RunEnv) :
    ((recordingRun cfg env).frames = [] →
      (recordingRun cfg env).fileWritten = false ∧
      RecEvent.recording_complete ∉ (recordingRun cfg env).events) ∧
    ((openPhase cfg env).2.2 = none →
      (captureLoop (openPhase cfg env).2.1.length env.iterations).2 = none →
      (captureLoop (openPhase cfg env).2.1.length env.iterations).1 ≠ [] →
      env.writeOk = true →
      (recordingRun cfg env).fileWritten = true ∧
      (recordingRun cfg env).events = [RecEvent.recording_complete]) := by
  rcases hop : openPhase cfg env with ⟨hs, ss, e⟩
  cases e with
  | some msg =>
    constructor
    · intro _
      simp [recordingRun, runBody, hop]
    · intro h1
      simp at h1
  | none =>
    rcases hc : captureLoop ss.length env.iterations with ⟨frames, fat⟩
    cases fat with
    | some m =>
      constructor
      · intro _
        simp [recordingRun, runBody, hop, hc]
      · intro h1 h2
        simp at h2
    | none =>
      by_cases hf : frames.isEmpty
      · have hfe : frames = [] := by
          cases frames with
          | nil => rfl
          | cons a t => simp [List.isEmpty] at hf
        constructor
        · intro _
          simp [recordingRun, runBody, hop, hc, hf]
        · intro h1 h3 h4 h5
          exact absurd hfe h4
      · constructor
        · intro hfr
          exfalso
          have : frames = [] := by
            cases hw : env.writeOk <;>
              simpa [recordingRun, runBody, hop, hc, hf, hw] using hfr
          rw [this] at hf
          simp [List.isEmpty] at hf
        · intro h1 h3 h4 h5
          simp [recordingRun, runBody, hop, hc, hf, h5]

/-- Witness for C6: one successfully captured chunk yields a written file and
exactly one completion event. -/
theorem recording_empty_buffer_no_output_witness :
    (recordingRun ⟨InputSource.microphone, some 0, none⟩
        ⟨true, true, [[ReadOutcome.ok 5]], true⟩).fileWritten = true ∧
    (recordingRun ⟨InputSource.microphone, some 0, none⟩
        ⟨true, true, [[ReadOutcome.ok 5]], true⟩).events =
      [RecEvent.recording_complete] :=
  (recording_empty_buffer_no_output ⟨InputSource.microphone, some 0, none⟩
      ⟨true, true, [[ReadOutcome.ok 5]], true⟩).2 rfl rfl (by decide) rfl

end FastWhisper
